import Mathlib

/-!
Verification of the carinfopro visitor chat widget
(`front/static/front/js/app.js`, fullest variant).

The widget is a browser-resident chat session manager.  We give a shallow
embedding of its state and operations:

* DOM/message-list state, the `seen` dedup map, `localStorage` for the
  owner-scoped room record, the WebSocket handle and status line are all
  fields of an explicit `ChatState`;
* the network (the `POST /api/chat/start/` call, the history `GET`, and
  the locale time formatter) is an oracle record `Env`;
* every externally visible action (REST call issued, message rendered,
  WebSocket construction, storage write) is logged as an `Event` in an
  append-only trace, so ordering claims can be read off the trace.

JavaScript truthiness of string-or-null values (`if (x)`, `x || d`) is
modelled by `strTruthy` / `jsOr` / `jsOrNull` over `Option String`.
-/

set_option autoImplicit false

namespace CarInfoChat

/-- JS truthiness of a value that is either a string or null/undefined:
truthy iff it is a present, non-empty string. -/
def strTruthy : Option String → Bool
  | some s => !(s == "")
  | none => false

/-- JS `x || dflt` for a string-or-null `x`. -/
def jsOr (v : Option String) (dflt : String) : String :=
  if strTruthy v then v.getD "" else dflt

/-- JS `x || null` for a string-or-null `x` (empty string collapses to null). -/
def jsOrNull (v : Option String) : Option String :=
  if strTruthy v then v else none

/-- Timeline message shape handed to `addMessage` (and `renderMessage`). -/
structure Msg where
  id : Option String
  client_msg_id : Option String
  sender : String
  text : String
  time : String
  created_at : Option String
deriving DecidableEq

/-- One entry of the REST history response
(`GET {base}/api/chat/rooms/{room}/messages/`). -/
structure HistMsg where
  id : Option String
  sender_type : Option String
  content : Option String
  created_at : Option String
deriving DecidableEq

/-- A successfully parsed inbound WebSocket frame. -/
structure WSData where
  id : Option String
  client_msg_id : Option String
  sender_type : Option String
  message : Option String
  created_at : Option String
deriving DecidableEq

/-- Body of the `POST {base}/api/chat/start/` request.  `room_id` /
`visitor_token` are `none` when the fields are absent from the payload. -/
structure StartPayload where
  user_id : String
  visitor_name : String
  room_id : Option String
  visitor_token : Option String
deriving DecidableEq

/-- Body of a successful `POST /api/chat/start/` response. -/
structure StartResp where
  room_id : String
  visitor_token : String
  ws_path : Option String
deriving DecidableEq

/-- The JSON record persisted in `localStorage` under
`carinfo_room_<ownerId>` (fields are `Option` because arbitrary stored
JSON may lack them). -/
structure StoredRoom where
  roomId : Option String
  visitorToken : Option String
deriving DecidableEq

/-- A WebSocket handle: target and readyState
(0 CONNECTING, 1 OPEN, 3 CLOSED). -/
structure WSHandle where
  path : String
  token : String
  readyState : Nat
deriving DecidableEq

/-- Outbound WebSocket frame `{message, client_msg_id}` built by
`sendMessage`. -/
structure OutFrame where
  message : String
  client_msg_id : String
deriving DecidableEq

/-- Externally visible actions, logged in execution order. -/
inductive Event where
  | restStart (base : String) (payload : StartPayload)
  | restHistory (base room token : String)
  | timelineAdd (m : Msg)
  | wsAttempt (path token : String)
  | storageSave (room token : String)
  | storageClear
  | urlReplace (room token : String)
deriving DecidableEq

/-- The widget state: the closure variables of `initChat` plus the DOM
message list, the status line, `localStorage` content for this owner, the
outbound frames handed to the socket, and the event trace. -/
structure ChatState where
  restBase : String
  roomId : Option String
  visitorToken : Option String
  seen : List String
  timeline : List Msg
  storage : Option StoredRoom
  status : String
  statusKind : String
  retryHidden : Bool
  ws : Option WSHandle
  lastSendAt : Nat
  sentFrames : List OutFrame
  events : List Event
deriving DecidableEq

/-- Static configuration of `initChat`.  In the source `restBases` is
initialised as the singleton `[restBase]` (line `var restBases =
[restBase]`); `tryBase` iterates the list generically, so we keep it as a
list parameter. -/
structure Config where
  userId : String
  restBases : List String
  wsBase : String
deriving DecidableEq

/-- The environment: responses of the start endpoint and the history
endpoint (`none` models any request failure: network error, non-2xx, or
unparseable body), and the locale time formatter (`formatTime`, falling
back to `nowTime()` — wall-clock dependent, hence an oracle). -/
structure Env where
  startResult : String → StartPayload → Option StartResp
  historyResult : String → String → String → Option (List HistMsg)
  fmtTime : Option String → String

/-- `messageKey(msg)`: the Dedup Key.  Prefer `client_msg_id`, else the
server `id`, else `sender|created_at|text`, else `sender|text|time`. -/
def messageKey (msg : Msg) : String :=
  if strTruthy msg.client_msg_id then "cid:" ++ msg.client_msg_id.getD ""
  else if strTruthy msg.id then "id:" ++ msg.id.getD ""
  else if strTruthy msg.created_at then
    msg.sender ++ "|" ++ msg.created_at.getD "" ++ "|" ++ msg.text
  else msg.sender ++ "|" ++ msg.text ++ "|" ++ msg.time

/-- `addMessage(msg)`: render unless the Dedup Key was already seen.  The
returned `Bool` records whether the message was newly added (rendered);
the source signals this by either rendering or returning early. -/
def addMessage (st : ChatState) (msg : Msg) : Bool × ChatState :=
  let key := messageKey msg
  if st.seen.contains key then (false, st)
  else (true, { st with seen := key :: st.seen,
                        timeline := st.timeline ++ [msg],
                        events := st.events ++ [.timelineAdd msg] })

/-- `clearMessages()`: wipe the rendered list and the seen map. -/
def clearMessages (st : ChatState) : ChatState :=
  { st with seen := [], timeline := [] }

/-- `setStatus(text, kind)` (absent `kind` is the empty string). -/
def setStatus (st : ChatState) (text kind : String) : ChatState :=
  { st with status := text, statusKind := kind }

/-- Normalisation of a history entry into the timeline message shape
(the `addMessage({...})` literal inside `loadHistory`). -/
def histToMsg (env : Env) (m : HistMsg) : Msg :=
  { id := jsOrNull m.id
    client_msg_id := none
    sender := jsOr m.sender_type "owner"
    text := jsOr m.content ""
    time := env.fmtTime m.created_at
    created_at := jsOrNull m.created_at }

/-- Normalisation of a parsed WebSocket frame into the timeline message
shape (the `addMessage({...})` literal inside `ws.onmessage`). -/
def wsDataToMsg (env : Env) (d : WSData) : Msg :=
  { id := jsOrNull d.id
    client_msg_id := jsOrNull d.client_msg_id
    sender := jsOr d.sender_type "owner"
    text := jsOr d.message ""
    time := env.fmtTime d.created_at
    created_at := jsOrNull d.created_at }

/-- Fold of `addMessage` over a list of history entries
(`data.forEach(...)` in `loadHistory`). -/
def addAllHist (env : Env) (st : ChatState) (ms : List HistMsg) : ChatState :=
  ms.foldl (fun s m => (addMessage s (histToMsg env m)).2) st

/-- The `timelineAdd` events emitted when a backlog list is folded into
the timeline starting from the given seen set (mirrors the dedup logic of
`addMessage`). -/
def histEvents (env : Env) (seen : List String) : List HistMsg → List Event
  | [] => []
  | m :: rest =>
      let msg := histToMsg env m
      let key := messageKey msg
      if seen.contains key then histEvents env seen rest
      else Event.timelineAdd msg :: histEvents env (key :: seen) rest

/-- The `timelineAdd` events of one `loadHistory` run from state `st`. -/
def historyEvents (env : Env) (st : ChatState) : List Event :=
  match env.historyResult st.restBase (st.roomId.getD "") (st.visitorToken.getD "") with
  | none => []
  | some ms => histEvents env st.seen ms

/-- The `timelineAdd` events of a backlog fetch performed on a freshly
cleared timeline (empty seen set). -/
def backlogEvents (env : Env) (base room tok : String) : List Event :=
  match env.historyResult base room tok with
  | none => []
  | some ms => histEvents env [] ms

/-- `saveStoredRoom()`: persist the current `{roomId, visitorToken}`. -/
def saveStoredRoom (st : ChatState) : ChatState :=
  { st with storage := some ⟨st.roomId, st.visitorToken⟩,
            events := st.events ++
              [.storageSave (st.roomId.getD "") (st.visitorToken.getD "")] }

/-- `clearStoredRoom()`: remove the persisted record for this owner. -/
def clearStoredRoom (st : ChatState) : ChatState :=
  { st with storage := none, events := st.events ++ [.storageClear] }

/-- The start payload `{user_id, visitor_name: '', room_id?, visitor_token?}`:
the room/token pair is included iff both are truthy at call time. -/
def mkStartPayload (cfg : Config) (roomId visitorToken : Option String) :
    StartPayload :=
  if strTruthy roomId && strTruthy visitorToken then
    { user_id := cfg.userId, visitor_name := "",
      room_id := roomId, visitor_token := visitorToken }
  else
    { user_id := cfg.userId, visitor_name := "",
      room_id := none, visitor_token := none }

/-- `loadHistory()`: GET the backlog for the current room and feed each
entry to `addMessage`.  The `Bool` is promise resolution: `true` for the
`.then` branch, `false` for `.catch`. -/
def loadHistory (env : Env) (st : ChatState) : Bool × ChatState :=
  let room := st.roomId.getD ""
  let tok := st.visitorToken.getD ""
  let st1 := { st with events := st.events ++ [.restHistory st.restBase room tok] }
  match env.historyResult st.restBase room tok with
  | none => (false, st1)
  | some ms => (true, addAllHist env st1 ms)

/-- `connectWebSocket(wsPath)` / inner `tryConnect()`: close any old
socket still CONNECTING or OPEN, then construct one new WebSocket at
`wsBase + wsPath + '?visitor=' + token`.  No other target is ever tried:
`tryConnect` is invoked exactly once per `connectWebSocket` call. -/
def connectWebSocket (st : ChatState) (wsPath : String) : ChatState :=
  let st1 :=
    match st.ws with
    | some h => if h.readyState == 0 || h.readyState == 1 then { st with ws := none } else st
    | none => st
  let tok := st1.visitorToken.getD ""
  { st1 with ws := some ⟨wsPath, tok, 0⟩,
             events := st1.events ++ [.wsAttempt wsPath tok] }

/-- The `.then` body of a successful start call: adopt the returned pair,
persist it, rewrite the location query, clear the timeline, load history
(connecting afterwards in both the `.then` and the `.catch` branch), and
open the WebSocket at `data.ws_path || '/ws/chat/<room>/'`. -/
def startSuccess (env : Env) (data : StartResp) (st : ChatState) : ChatState :=
  let st := { st with roomId := some data.room_id,
                      visitorToken := some data.visitor_token }
  let st := saveStoredRoom st
  let st := { st with events := st.events ++
                [.urlReplace data.room_id data.visitor_token] }
  let st := clearMessages st
  let st := (loadHistory env st).2
  connectWebSocket st (jsOr data.ws_path ("/ws/chat/" ++ data.room_id ++ "/"))

/-- `tryBase()`: walk the candidate base list; on exhaustion show the
failure status and the retry button; otherwise issue the start call for
the current base and either proceed (`startSuccess`) or advance. -/
def tryBase (cfg : Config) (env : Env) : List String → ChatState → ChatState
  | [], st =>
      { st with status := "Chatni ochib bo\u2018lmadi", statusKind := "err",
                retryHidden := false }
  | base :: rest, st =>
      let st := { st with restBase := base }
      let payload := mkStartPayload cfg st.roomId st.visitorToken
      let st := { st with events := st.events ++ [.restStart base payload] }
      match env.startResult base payload with
      | none => tryBase cfg env rest st
      | some data => startSuccess env data st

/-- `startChat()`: set the opening status, hide retry, and run `tryBase`
from the first candidate base (`index = 0`). -/
def startChat (cfg : Config) (env : Env) (st : ChatState) : ChatState :=
  let st := setStatus st "Chat ochilmoqda..." ""
  let st := { st with retryHidden := true }
  tryBase cfg env cfg.restBases st

/-- The assignment phase of `resumeChat()` (lines `roomFromUrl`/`stored`):
adopt the URL pair when both query parameters are truthy, else the stored
pair when its record holds a truthy pair, else leave the identity as is. -/
def resumePick (urlRoom urlToken : Option String) (st : ChatState) : ChatState :=
  if strTruthy urlRoom && strTruthy urlToken then
    { st with roomId := urlRoom, visitorToken := urlToken }
  else
    match st.storage with
    | some rec =>
        if strTruthy rec.roomId && strTruthy rec.visitorToken then
          { st with roomId := rec.roomId, visitorToken := rec.visitorToken }
        else st
    | none => st

/-- The branch phase of `resumeChat()`: with an incomplete identity fall
through to `startChat`; otherwise fetch the backlog and, on success,
connect to `/ws/chat/<room>/`; on failure clear the stored record and
fall back to `startChat`. -/
def resumeBody (cfg : Config) (env : Env) (st : ChatState) : ChatState :=
  if !(strTruthy st.roomId && strTruthy st.visitorToken) then
    startChat cfg env st
  else
    let st1 := clearMessages st
    let st2 := setStatus st1 "Oldingi chat tiklanmoqda..." ""
    match loadHistory env st2 with
    | (true, st3) => connectWebSocket st3 ("/ws/chat/" ++ st3.roomId.getD "" ++ "/")
    | (false, st3) => startChat cfg env (clearStoredRoom st3)

/-- `resumeChat()`: the assignment phase followed by the branch phase. -/
def resumeChat (cfg : Config) (env : Env) (urlRoom urlToken : Option String)
    (st : ChatState) : ChatState :=
  resumeBody cfg env (resumePick urlRoom urlToken st)

/-- Last element of a list, or the given default for an empty list
(tracks the final value of the mutable `restBase` after a walk of the
candidate list). -/
def lastOr (d : String) : List String → String
  | [] => d
  | b :: rest => lastOr b rest

/-- `ws.onopen`: socket reaches OPEN, status `Ulandi`, retry hidden. -/
def wsOnOpen (st : ChatState) : ChatState :=
  { st with ws := st.ws.map (fun h => { h with readyState := 1 }),
            status := "Ulandi", statusKind := "ok", retryHidden := true }

/-- `ws.onmessage`: `JSON.parse` the frame inside `try`; an unparseable
frame (`none`) is swallowed by the empty `catch`; a parsed frame is
normalised and fed to `addMessage`. -/
def wsOnMessage (env : Env) (st : ChatState) (parsed : Option WSData) : ChatState :=
  match parsed with
  | none => st
  | some d => (addMessage st (wsDataToMsg env d)).2

/-- `ws.onclose`: socket CLOSED, status `Ulanish uzildi`, retry shown.
This is the only failure reporting of the connection path — no further
connection attempt is made here. -/
def wsOnClose (st : ChatState) : ChatState :=
  { st with ws := st.ws.map (fun h => { h with readyState := 3 }),
            status := "Ulanish uzildi", statusKind := "err",
            retryHidden := false }

/-- Outcome of one `sendMessage()` call. -/
inductive SendOutcome where
  | emptyText
  | debounced
  | notConnected
  | sent (frame : OutFrame)
deriving DecidableEq

/-- `ws && ws.readyState === 1`. -/
def wsIsOpen (st : ChatState) : Bool :=
  match st.ws with
  | some h => h.readyState == 1
  | none => false

/-- Strip leading whitespace characters from a character list. -/
def trimLeadingChars : List Char → List Char
  | [] => []
  | c :: cs => if c.isWhitespace then trimLeadingChars cs else c :: cs

/-- JavaScript `String.prototype.trim`: strip leading and trailing
whitespace (structurally recursive so concrete inputs evaluate). -/
def jsTrim (s : String) : String :=
  ⟨(trimLeadingChars (trimLeadingChars s.data).reverse).reverse⟩

/-- `sendMessage()`: trim the input; reject empty text; reject within
350ms of `lastSendAt`; then stamp `lastSendAt = now`; reject (with a
not-connected status) unless the socket is OPEN; otherwise send
`{message, client_msg_id: uuid()}`.  `now` is `Date.now()` and `freshId`
the `uuid()` value, both supplied by the environment of the call. -/
def sendMessage (st : ChatState) (inputValue : String) (now : Nat)
    (freshId : String) : SendOutcome × ChatState :=
  let text := jsTrim inputValue
  if text == "" then (.emptyText, st)
  else if now - st.lastSendAt < 350 then (.debounced, st)
  else
    let st := { st with lastSendAt := now }
    if !(wsIsOpen st) then
      (.notConnected, setStatus st "Ulanish yo\u2018q. Qayta ulaning." "err")
    else
      (.sent ⟨text, freshId⟩,
       { st with sentFrames := st.sentFrames ++ [⟨text, freshId⟩] })

/-- The `restStart` events of a trace, i.e. the issued start calls. -/
def startCalls (evs : List Event) : List (String × StartPayload) :=
  evs.filterMap fun e =>
    match e with
    | .restStart b p => some (b, p)
    | _ => none

/-- The `wsAttempt` events of a trace, i.e. the WebSocket constructions. -/
def wsAttemptsOf (evs : List Event) : List (String × String) :=
  evs.filterMap fun e =>
    match e with
    | .wsAttempt p t => some (p, t)
    | _ => none

/-- Whether an event is a WebSocket construction. -/
def isWsAttempt : Event → Bool
  | .wsAttempt _ _ => true
  | _ => false

/-- Fold of `addMessage` over an arbitrary list of timeline messages
(a sequence of subsequent `addMessage` calls from any producer). -/
def addAllMsgs (st : ChatState) (ms : List Msg) : ChatState :=
  ms.foldl (fun s m => (addMessage s m).2) st

/-- The initial closure state of `initChat` (before `resumeChat()` runs):
no socket, no room, empty seen map, `lastSendAt = 0`; `storage` is
whatever `localStorage` holds for this owner. -/
def initState (cfg : Config) (storage : Option StoredRoom) : ChatState :=
  { restBase := cfg.restBases.headD ""
    roomId := none
    visitorToken := none
    seen := []
    timeline := []
    storage := storage
    status := ""
    statusKind := ""
    retryHidden := true
    ws := none
    lastSendAt := 0
    sentFrames := []
    events := [] }

/-! ### Concrete fixtures used by witnesses and counterexamples -/

/-- Concrete configuration: owner `u1`, the singleton base list of the
source (`restBases = [restBase]` with `restBase = ''`). -/
def cfgW : Config := ⟨"u1", [""], ""⟩

/-- Concrete start response. -/
def respW : StartResp := ⟨"r1", "t1", some "/ws/chat/r1/"⟩

/-- Environment where every REST call fails. -/
def envFailW : Env := ⟨fun _ _ => none, fun _ _ _ => none, fun _ => "12:00"⟩

/-- Environment where the start call succeeds and the backlog holds one
owner message. -/
def envOkW : Env :=
  ⟨fun _ _ => some respW,
   fun _ _ _ => some [⟨some "m1", some "owner", some "hi", some "2026-01-01T00:00:00Z"⟩],
   fun _ => "12:00"⟩

/-- Initial state with a stored identity `{roomId: r1, visitorToken: t1}`. -/
def stStoredW : ChatState := initState cfgW (some ⟨some "r1", some "t1"⟩)

/-- Initial state with an in-memory visitor token only. -/
def stTokW : ChatState := { initState cfgW none with visitorToken := some "t1" }

/-- Initial state whose WebSocket is OPEN. -/
def stOpenW : ChatState :=
  { initState cfgW none with ws := some ⟨"/ws/chat/r1/", "t1", 1⟩ }

/-- Configuration with two candidate bases, for the candidate-walk
scenario. -/
def cfgC4 : Config := ⟨"u1", ["b0", ""], ""⟩

/-- Environment whose start endpoint succeeds only at the base `""` and
whose history endpoint always fails. -/
def envC4 : Env :=
  ⟨fun b _ => if b == "" then some respW else none,
   fun _ _ _ => none, fun _ => "12:00"⟩

/-- A concrete message carrying a client message id. -/
def msgCidW : Msg := ⟨some "sid1", some "abc", "visitor", "hi", "12:00", none⟩

/-- A concrete backlog-shaped message (no client id, server id only). -/
def msgIdW : Msg := ⟨some "m1", none, "owner", "hello", "12:01", some "2026-01-01T00:00:00Z"⟩

end CarInfoChat

/-! ## Helper lemmas -/

namespace CarInfoChat

theorem addMessage_fields (st : ChatState) (m : Msg) :
    (addMessage st m).2.restBase = st.restBase ∧
    (addMessage st m).2.roomId = st.roomId ∧
    (addMessage st m).2.visitorToken = st.visitorToken ∧
    (addMessage st m).2.storage = st.storage ∧
    (addMessage st m).2.status = st.status ∧
    (addMessage st m).2.statusKind = st.statusKind ∧
    (addMessage st m).2.retryHidden = st.retryHidden ∧
    (addMessage st m).2.ws = st.ws ∧
    (addMessage st m).2.lastSendAt = st.lastSendAt ∧
    (addMessage st m).2.sentFrames = st.sentFrames := by
  simp only [addMessage]
  split <;> simp

theorem addMessage_events (st : ChatState) (m : Msg) :
    ∃ tl, (addMessage st m).2.events = st.events ++ tl ∧
      ∀ e ∈ tl, ∃ mm, e = Event.timelineAdd mm := by
  simp only [addMessage]
  split
  · exact ⟨[], by simp, by simp⟩
  · exact ⟨[Event.timelineAdd m], by simp, by simp⟩

theorem addMessage_seen_mono (st : ChatState) (m : Msg) (k : String)
    (h : st.seen.contains k = true) :
    (addMessage st m).2.seen.contains k = true := by
  simp only [addMessage]
  split
  · exact h
  · simpa [List.contains_cons] using Or.inr h

theorem addMessage_of_contains (st : ChatState) (m : Msg)
    (h : st.seen.contains (messageKey m) = true) :
    addMessage st m = (false, st) := by
  simp only [addMessage]
  rw [h]
  simp

theorem addMessage_of_not_contains (st : ChatState) (m : Msg)
    (h : st.seen.contains (messageKey m) = false) :
    addMessage st m =
      (true, { st with seen := messageKey m :: st.seen,
                       timeline := st.timeline ++ [m],
                       events := st.events ++ [.timelineAdd m] }) := by
  simp only [addMessage]
  rw [h]
  simp

theorem addAllMsgs_seen_mono (ms : List Msg) (st : ChatState) (k : String)
    (h : st.seen.contains k = true) :
    (addAllMsgs st ms).seen.contains k = true := by
  induction ms generalizing st with
  | nil => exact h
  | cons m rest ih =>
      exact ih _ (addMessage_seen_mono st m k h)

theorem addAllHist_fields (env : Env) (ms : List HistMsg) (st : ChatState) :
    (addAllHist env st ms).restBase = st.restBase ∧
    (addAllHist env st ms).roomId = st.roomId ∧
    (addAllHist env st ms).visitorToken = st.visitorToken ∧
    (addAllHist env st ms).storage = st.storage ∧
    (addAllHist env st ms).ws = st.ws := by
  induction ms generalizing st with
  | nil => exact ⟨rfl, rfl, rfl, rfl, rfl⟩
  | cons m rest ih =>
      have hf := addMessage_fields st (histToMsg env m)
      have hr := ih ((addMessage st (histToMsg env m)).2)
      simp only [addAllHist, List.foldl_cons]
      simp only [addAllHist] at hr
      exact ⟨hr.1.trans hf.1, hr.2.1.trans hf.2.1,
             hr.2.2.1.trans hf.2.2.1, hr.2.2.2.1.trans hf.2.2.2.1,
             hr.2.2.2.2.trans hf.2.2.2.2.2.2.2.1⟩

theorem addAllHist_events (env : Env) (ms : List HistMsg) (st : ChatState) :
    ∃ tl, (addAllHist env st ms).events = st.events ++ tl ∧
      ∀ e ∈ tl, ∃ mm, e = Event.timelineAdd mm := by
  induction ms generalizing st with
  | nil => exact ⟨[], by simp [addAllHist], by simp⟩
  | cons m rest ih =>
      obtain ⟨tl1, h1, h1t⟩ := addMessage_events st (histToMsg env m)
      obtain ⟨tl2, h2, h2t⟩ := ih ((addMessage st (histToMsg env m)).2)
      refine ⟨tl1 ++ tl2, ?_, ?_⟩
      · simp only [addAllHist, List.foldl_cons] at *
        rw [h2, h1, List.append_assoc]
      · intro e he
        rcases List.mem_append.1 he with h | h
        · exact h1t e h
        · exact h2t e h

theorem loadHistory_fields (env : Env) (st : ChatState) :
    (loadHistory env st).2.restBase = st.restBase ∧
    (loadHistory env st).2.roomId = st.roomId ∧
    (loadHistory env st).2.visitorToken = st.visitorToken ∧
    (loadHistory env st).2.storage = st.storage ∧
    (loadHistory env st).2.ws = st.ws := by
  simp only [loadHistory]
  split
  · exact ⟨rfl, rfl, rfl, rfl, rfl⟩
  · exact addAllHist_fields env _
      { st with events := st.events ++
          [.restHistory st.restBase (st.roomId.getD "") (st.visitorToken.getD "")] }

theorem loadHistory_events (env : Env) (st : ChatState) :
    ∃ tl, (loadHistory env st).2.events =
        (st.events ++
          [Event.restHistory st.restBase (st.roomId.getD "") (st.visitorToken.getD "")])
          ++ tl ∧
      ∀ e ∈ tl, ∃ mm, e = Event.timelineAdd mm := by
  simp only [loadHistory]
  split
  · exact ⟨[], by simp, by simp⟩
  · obtain ⟨tl, h, ht⟩ := addAllHist_events env _
      { st with events := st.events ++
          [.restHistory st.restBase (st.roomId.getD "") (st.visitorToken.getD "")] }
    exact ⟨tl, h, ht⟩

theorem connectWebSocket_events (st : ChatState) (p : String) :
    (connectWebSocket st p).events =
      st.events ++ [Event.wsAttempt p (st.visitorToken.getD "")] := by
  simp only [connectWebSocket]
  split
  · split <;> rfl
  · rfl

theorem connectWebSocket_fields (st : ChatState) (p : String) :
    (connectWebSocket st p).roomId = st.roomId ∧
    (connectWebSocket st p).visitorToken = st.visitorToken ∧
    (connectWebSocket st p).storage = st.storage ∧
    (connectWebSocket st p).timeline = st.timeline := by
  simp only [connectWebSocket]
  split
  · split <;> exact ⟨rfl, rfl, rfl, rfl⟩
  · exact ⟨rfl, rfl, rfl, rfl⟩

theorem wsIsOpen_lastSendAt (st : ChatState) (n : Nat) :
    wsIsOpen { st with lastSendAt := n } = wsIsOpen st := rfl

theorem loadHistory_some (env : Env) (st : ChatState) (ms : List HistMsg)
    (hms : env.historyResult st.restBase (st.roomId.getD "") (st.visitorToken.getD "")
      = some ms) :
    loadHistory env st =
      (true, addAllHist env
        { st with events := st.events ++
            [Event.restHistory st.restBase (st.roomId.getD "") (st.visitorToken.getD "")] }
        ms) := by
  simp [loadHistory, hms]

theorem loadHistory_none (env : Env) (st : ChatState)
    (hms : env.historyResult st.restBase (st.roomId.getD "") (st.visitorToken.getD "")
      = none) :
    loadHistory env st =
      (false,
        { st with events := st.events ++
            [Event.restHistory st.restBase (st.roomId.getD "") (st.visitorToken.getD "")] }) := by
  simp [loadHistory, hms]

theorem loadHistory_connect_events (env : Env) (st : ChatState) (p : String) :
    ∃ tl, (connectWebSocket (loadHistory env st).2 p).events =
        st.events ++
          ([Event.restHistory st.restBase (st.roomId.getD "") (st.visitorToken.getD "")]
            ++ tl ++ [Event.wsAttempt p (st.visitorToken.getD "")]) ∧
      ∀ e ∈ tl, ∃ mm, e = Event.timelineAdd mm := by
  obtain ⟨tl, hev, htl⟩ := loadHistory_events env st
  refine ⟨tl, ?_, htl⟩
  rw [connectWebSocket_events, hev, (loadHistory_fields env st).2.2.1]
  simp [List.append_assoc]

theorem startSuccess_events (env : Env) (data : StartResp) (st : ChatState) :
    ∃ tl, (startSuccess env data st).events =
        st.events ++
          ([Event.storageSave data.room_id data.visitor_token,
            Event.urlReplace data.room_id data.visitor_token,
            Event.restHistory st.restBase data.room_id data.visitor_token]
            ++ tl ++
            [Event.wsAttempt (jsOr data.ws_path ("/ws/chat/" ++ data.room_id ++ "/"))
              data.visitor_token]) ∧
      ∀ e ∈ tl, ∃ mm, e = Event.timelineAdd mm := by
  obtain ⟨tl, hev, htl⟩ := loadHistory_connect_events env
    (clearMessages
      { saveStoredRoom { st with roomId := some data.room_id,
                                 visitorToken := some data.visitor_token } with
        events := (saveStoredRoom { st with roomId := some data.room_id,
                                            visitorToken := some data.visitor_token }).events
          ++ [.urlReplace data.room_id data.visitor_token] })
    (jsOr data.ws_path ("/ws/chat/" ++ data.room_id ++ "/"))
  refine ⟨tl, ?_, htl⟩
  rw [startSuccess]
  rw [hev]
  simp [saveStoredRoom, clearMessages, List.append_assoc]

theorem startSuccess_ids (env : Env) (data : StartResp) (st : ChatState) :
    (startSuccess env data st).roomId = some data.room_id ∧
    (startSuccess env data st).visitorToken = some data.visitor_token := by
  unfold startSuccess
  constructor
  · rw [(connectWebSocket_fields _ _).1, (loadHistory_fields _ _).2.1]
    simp [saveStoredRoom, clearMessages]
  · rw [(connectWebSocket_fields _ _).2.1, (loadHistory_fields _ _).2.2.1]
    simp [saveStoredRoom, clearMessages]

theorem startCalls_append (l1 l2 : List Event) :
    startCalls (l1 ++ l2) = startCalls l1 ++ startCalls l2 := by
  simp [startCalls, List.filterMap_append]

theorem startCalls_nil_of_adds (tl : List Event)
    (h : ∀ e ∈ tl, ∃ mm, e = Event.timelineAdd mm) : startCalls tl = [] := by
  induction tl with
  | nil => rfl
  | cons e rest ih =>
      obtain ⟨mm, he⟩ := h e (List.mem_cons_self e rest)
      subst he
      simp only [startCalls, List.filterMap_cons]
      exact ih fun e' he' => h e' (List.mem_cons_of_mem _ he')

theorem startCalls_map_restStart (l : List String) (p : StartPayload) :
    startCalls (l.map fun b => Event.restStart b p) = l.map fun b => (b, p) := by
  induction l with
  | nil => rfl
  | cons b rest ih =>
      simp only [List.map_cons, startCalls, List.filterMap_cons]
      simpa [startCalls] using ih

theorem tryBase_append_fail (cfg : Config) (env : Env) :
    ∀ (l1 l2 : List String) (st : ChatState),
      (∀ b ∈ l1, ∀ p, env.startResult b p = none) →
      tryBase cfg env (l1 ++ l2) st =
        tryBase cfg env l2
          { st with restBase := lastOr st.restBase l1,
                    events := st.events ++ l1.map
                      (fun b => Event.restStart b
                        (mkStartPayload cfg st.roomId st.visitorToken)) } := by
  intro l1
  induction l1 with
  | nil =>
      intro l2 st h
      simp [lastOr]
  | cons b rest ih =>
      intro l2 st h
      have hb := h b (List.mem_cons_self b rest)
      simp only [List.cons_append, tryBase, hb, List.append_eq]
      rw [ih l2 _ (fun b' hb' p => h b' (List.mem_cons_of_mem b hb') p)]
      simp [lastOr, List.append_assoc]

theorem tryBase_nil (cfg : Config) (env : Env) (st : ChatState) :
    tryBase cfg env [] st =
      { st with status := "Chatni ochib bo\u2018lmadi", statusKind := "err",
                retryHidden := false } := rfl

theorem tryBase_success_cons (cfg : Config) (env : Env) (b : String)
    (rest : List String) (st : ChatState) (data : StartResp)
    (h : env.startResult b (mkStartPayload cfg st.roomId st.visitorToken)
      = some data) :
    tryBase cfg env (b :: rest) st =
      startSuccess env data
        { st with restBase := b,
                  events := st.events ++
                    [Event.restStart b (mkStartPayload cfg st.roomId st.visitorToken)] } := by
  simp only [tryBase]
  rw [h]

theorem tryBase_events_head (cfg : Config) (env : Env) :
    ∀ (l : List String) (st : ChatState),
      ∃ tr, (tryBase cfg env l st).events = st.events ++ tr ∧
        (startCalls tr).head? =
          l.head?.map (fun b => (b, mkStartPayload cfg st.roomId st.visitorToken)) := by
  intro l
  induction l with
  | nil => intro st; exact ⟨[], by simp [tryBase_nil], by simp [startCalls]⟩
  | cons b rest ih =>
      intro st
      cases hres : env.startResult b (mkStartPayload cfg st.roomId st.visitorToken) with
      | none =>
          obtain ⟨tr, hev, _⟩ := ih
            { st with restBase := b,
                      events := st.events ++
                        [Event.restStart b (mkStartPayload cfg st.roomId st.visitorToken)] }
          refine ⟨Event.restStart b (mkStartPayload cfg st.roomId st.visitorToken) :: tr,
            ?_, ?_⟩
          · simp only [tryBase, hres]
            rw [hev]
            simp
          · simp [startCalls, List.filterMap_cons]
      | some data =>
          obtain ⟨tl, hev, htl⟩ := startSuccess_events env data
            { st with restBase := b,
                      events := st.events ++
                        [Event.restStart b (mkStartPayload cfg st.roomId st.visitorToken)] }
          refine ⟨Event.restStart b (mkStartPayload cfg st.roomId st.visitorToken) ::
            ([Event.storageSave data.room_id data.visitor_token,
              Event.urlReplace data.room_id data.visitor_token,
              Event.restHistory b data.room_id data.visitor_token]
              ++ tl ++
              [Event.wsAttempt (jsOr data.ws_path ("/ws/chat/" ++ data.room_id ++ "/"))
                data.visitor_token]), ?_, ?_⟩
          · rw [tryBase_success_cons cfg env b rest st data hres, hev]
            simp [List.append_assoc]
          · simp only [startCalls, List.filterMap_cons, List.filterMap_append]
            have hnil : startCalls tl = [] := startCalls_nil_of_adds tl htl
            simp only [startCalls] at hnil
            simp [hnil]

theorem startChat_events_head (cfg : Config) (env : Env) (st : ChatState) :
    ∃ tr, (startChat cfg env st).events = st.events ++ tr ∧
      (startCalls tr).head? =
        cfg.restBases.head?.map
          (fun b => (b, mkStartPayload cfg st.roomId st.visitorToken)) := by
  obtain ⟨tr, hev, hh⟩ := tryBase_events_head cfg env cfg.restBases
    { setStatus st "Chat ochilmoqda..." "" with retryHidden := true }
  exact ⟨tr, hev, hh⟩

theorem histEvents_adds (env : Env) :
    ∀ (ms : List HistMsg) (seen : List String),
      ∀ e ∈ histEvents env seen ms, ∃ mm, e = Event.timelineAdd mm := by
  intro ms
  induction ms with
  | nil => intro seen e he; simp [histEvents] at he
  | cons m rest ih =>
      intro seen e he
      simp only [histEvents] at he
      split at he
      · exact ih _ e he
      · rcases List.mem_cons.mp he with rfl | h
        · exact ⟨_, rfl⟩
        · exact ih _ e h

theorem backlogEvents_adds (env : Env) (b r t : String) :
    ∀ e ∈ backlogEvents env b r t, ∃ mm, e = Event.timelineAdd mm := by
  unfold backlogEvents
  cases h : env.historyResult b r t with
  | none => intro e he; simp at he
  | some ms => intro e he; exact histEvents_adds env ms [] e he

theorem startCalls_backlogEvents (env : Env) (b r t : String) :
    startCalls (backlogEvents env b r t) = [] :=
  startCalls_nil_of_adds _ (backlogEvents_adds env b r t)

theorem addAllHist_events_eq (env : Env) :
    ∀ (ms : List HistMsg) (st : ChatState),
      (addAllHist env st ms).events = st.events ++ histEvents env st.seen ms := by
  intro ms
  induction ms with
  | nil => intro st; simp [addAllHist, histEvents]
  | cons m rest ih =>
      intro st
      have hfold : addAllHist env st (m :: rest) =
          addAllHist env (addMessage st (histToMsg env m)).2 rest := rfl
      rw [hfold]
      cases hc : st.seen.contains (messageKey (histToMsg env m)) with
      | true =>
          have hm : messageKey (histToMsg env m) ∈ st.seen := by simpa using hc
          rw [addMessage_of_contains st _ hc]
          show (addAllHist env st rest).events = _
          rw [ih st]
          simp [histEvents, hm]
      | false =>
          have hm : messageKey (histToMsg env m) ∉ st.seen := by simpa using hc
          rw [addMessage_of_not_contains st _ hc]
          show (addAllHist env
            { st with seen := messageKey (histToMsg env m) :: st.seen,
                      timeline := st.timeline ++ [histToMsg env m],
                      events := st.events ++ [Event.timelineAdd (histToMsg env m)] }
            rest).events = _
          rw [ih _]
          simp [histEvents, hm, List.append_assoc]

theorem loadHistory_events_eq (env : Env) (st : ChatState) :
    (loadHistory env st).2.events =
      st.events
        ++ [Event.restHistory st.restBase (st.roomId.getD "") (st.visitorToken.getD "")]
        ++ historyEvents env st := by
  simp only [loadHistory, historyEvents]
  cases h : env.historyResult st.restBase (st.roomId.getD "") (st.visitorToken.getD "") with
  | none => simp
  | some ms => rw [addAllHist_events_eq]

theorem startSuccess_events_eq (env : Env) (data : StartResp) (st : ChatState) :
    (startSuccess env data st).events =
      st.events
        ++ [Event.storageSave data.room_id data.visitor_token,
            Event.urlReplace data.room_id data.visitor_token,
            Event.restHistory st.restBase data.room_id data.visitor_token]
        ++ backlogEvents env st.restBase data.room_id data.visitor_token
        ++ [Event.wsAttempt (jsOr data.ws_path ("/ws/chat/" ++ data.room_id ++ "/"))
              data.visitor_token] := by
  unfold startSuccess
  rw [connectWebSocket_events, loadHistory_events_eq, (loadHistory_fields _ _).2.2.1]
  simp [saveStoredRoom, clearMessages, historyEvents, backlogEvents, List.append_assoc]

theorem tryBase_all_fail (cfg : Config) (env : Env) (l : List String) (st : ChatState)
    (h : ∀ b ∈ l, ∀ p, env.startResult b p = none) :
    tryBase cfg env l st =
      { st with restBase := lastOr st.restBase l,
                status := "Chatni ochib bo\u2018lmadi", statusKind := "err",
                retryHidden := false,
                events := st.events ++ l.map
                  (fun b => Event.restStart b
                    (mkStartPayload cfg st.roomId st.visitorToken)) } := by
  have h2 := tryBase_append_fail cfg env l [] st h
  rw [List.append_nil] at h2
  rw [h2, tryBase_nil]

theorem tryBase_last_success_events (cfg : Config) (env : Env) (l1 : List String)
    (bLast : String) (resp : StartResp) (st : ChatState)
    (hfail : ∀ b ∈ l1, ∀ p, env.startResult b p = none)
    (hsucc : ∀ p, env.startResult bLast p = some resp) :
    (tryBase cfg env (l1 ++ [bLast]) st).events =
      st.events
        ++ (l1 ++ [bLast]).map
            (fun b => Event.restStart b (mkStartPayload cfg st.roomId st.visitorToken))
        ++ [Event.storageSave resp.room_id resp.visitor_token,
            Event.urlReplace resp.room_id resp.visitor_token,
            Event.restHistory bLast resp.room_id resp.visitor_token]
        ++ backlogEvents env bLast resp.room_id resp.visitor_token
        ++ [Event.wsAttempt (jsOr resp.ws_path ("/ws/chat/" ++ resp.room_id ++ "/"))
              resp.visitor_token]
    ∧ (tryBase cfg env (l1 ++ [bLast]) st).roomId = some resp.room_id
    ∧ (tryBase cfg env (l1 ++ [bLast]) st).visitorToken = some resp.visitor_token := by
  rw [tryBase_append_fail cfg env l1 [bLast] st hfail]
  rw [tryBase_success_cons cfg env bLast [] _ resp (hsucc _)]
  refine ⟨?_, ?_, ?_⟩
  · rw [startSuccess_events_eq]
    simp [List.append_assoc, List.map_append]
  · rw [(startSuccess_ids _ _ _).1]
  · rw [(startSuccess_ids _ _ _).2]

theorem resumePick_url (ur ut : Option String) (st : ChatState)
    (h : (strTruthy ur && strTruthy ut) = true) :
    resumePick ur ut st = { st with roomId := ur, visitorToken := ut } := by
  simp [resumePick, h]

theorem resumePick_stored (ur ut : Option String) (st : ChatState) (rec : StoredRoom)
    (hurl : (strTruthy ur && strTruthy ut) = false)
    (hst : st.storage = some rec)
    (hp : (strTruthy rec.roomId && strTruthy rec.visitorToken) = true) :
    resumePick ur ut st =
      { st with roomId := rec.roomId, visitorToken := rec.visitorToken } := by
  simp [resumePick, hurl, hst, hp]

theorem resumePick_absent (ur ut : Option String) (st : ChatState)
    (hurl : (strTruthy ur && strTruthy ut) = false)
    (hst : ∀ rec, st.storage = some rec →
      (strTruthy rec.roomId && strTruthy rec.visitorToken) = false) :
    resumePick ur ut st = st := by
  simp only [resumePick, hurl, Bool.false_eq_true, if_false]
  cases hs : st.storage with
  | none => rfl
  | some rec => simp [hst rec hs]

theorem resumeBody_start (cfg : Config) (env : Env) (st : ChatState)
    (h : (strTruthy st.roomId && strTruthy st.visitorToken) = false) :
    resumeBody cfg env st = startChat cfg env st := by
  simp [resumeBody, h]

theorem resumeBody_success_eq (cfg : Config) (env : Env) (st : ChatState)
    (ms : List HistMsg)
    (hr : strTruthy st.roomId = true) (ht : strTruthy st.visitorToken = true)
    (hms : env.historyResult st.restBase (st.roomId.getD "") (st.visitorToken.getD "")
      = some ms) :
    (resumeBody cfg env st).events =
      st.events
        ++ [Event.restHistory st.restBase (st.roomId.getD "") (st.visitorToken.getD "")]
        ++ backlogEvents env st.restBase (st.roomId.getD "") (st.visitorToken.getD "")
        ++ [Event.wsAttempt ("/ws/chat/" ++ st.roomId.getD "" ++ "/")
              (st.visitorToken.getD "")] := by
  have hcond : (!(strTruthy st.roomId && strTruthy st.visitorToken)) = false := by
    simp [hr, ht]
  have hLH := loadHistory_some env
    (setStatus (clearMessages st) "Oldingi chat tiklanmoqda..." "") ms hms
  have hmatch : resumeBody cfg env st =
      connectWebSocket
        (loadHistory env (setStatus (clearMessages st) "Oldingi chat tiklanmoqda..." "")).2
        ("/ws/chat/" ++
          (loadHistory env (setStatus (clearMessages st) "Oldingi chat tiklanmoqda..." "")).2.roomId.getD ""
          ++ "/") := by
    simp only [resumeBody, hcond, Bool.false_eq_true, if_false]
    rw [hLH]
  rw [hmatch, connectWebSocket_events, loadHistory_events_eq,
      (loadHistory_fields _ _).2.1, (loadHistory_fields _ _).2.2.1]
  simp [setStatus, clearMessages, historyEvents, backlogEvents, List.append_assoc]

theorem resumeBody_fail_eq (cfg : Config) (env : Env) (st : ChatState)
    (hr : strTruthy st.roomId = true) (ht : strTruthy st.visitorToken = true)
    (hms : env.historyResult st.restBase (st.roomId.getD "") (st.visitorToken.getD "")
      = none) :
    resumeBody cfg env st =
      startChat cfg env (clearStoredRoom
        { setStatus (clearMessages st) "Oldingi chat tiklanmoqda..." "" with
          events := st.events ++
            [Event.restHistory st.restBase (st.roomId.getD "") (st.visitorToken.getD "")] }) := by
  have hcond : (!(strTruthy st.roomId && strTruthy st.visitorToken)) = false := by
    simp [hr, ht]
  have hLH := loadHistory_none env
    (setStatus (clearMessages st) "Oldingi chat tiklanmoqda..." "") hms
  simp only [resumeBody, hcond, Bool.false_eq_true, if_false]
  rw [hLH]
  rfl

theorem resumeBody_first_event (cfg : Config) (env : Env) (st : ChatState)
    (hr : strTruthy st.roomId = true) (ht : strTruthy st.visitorToken = true) :
    ∃ tr, (resumeBody cfg env st).events = st.events ++ tr ∧
      tr.head? = some (Event.restHistory st.restBase (st.roomId.getD "")
        (st.visitorToken.getD "")) := by
  cases hms : env.historyResult st.restBase (st.roomId.getD "") (st.visitorToken.getD "")
    with
  | some ms =>
      refine ⟨[Event.restHistory st.restBase (st.roomId.getD "") (st.visitorToken.getD "")]
          ++ backlogEvents env st.restBase (st.roomId.getD "") (st.visitorToken.getD "")
          ++ [Event.wsAttempt ("/ws/chat/" ++ st.roomId.getD "" ++ "/")
                (st.visitorToken.getD "")], ?_, by simp⟩
      rw [resumeBody_success_eq cfg env st ms hr ht hms]
      simp [List.append_assoc]
  | none =>
      rw [resumeBody_fail_eq cfg env st hr ht hms]
      obtain ⟨tr, hev, _⟩ := startChat_events_head cfg env
        (clearStoredRoom
          { setStatus (clearMessages st) "Oldingi chat tiklanmoqda..." "" with
            events := st.events ++
              [Event.restHistory st.restBase (st.roomId.getD "")
                (st.visitorToken.getD "")] })
      refine ⟨Event.restHistory st.restBase (st.roomId.getD "") (st.visitorToken.getD "")
        :: Event.storageClear :: tr, ?_, by simp⟩
      rw [hev]
      simp [clearStoredRoom, setStatus, clearMessages, List.append_assoc]

/-! ## Claim theorems -/

/-- Claim C2: for any two messages with equal Dedup Keys added to a fresh
Timeline Deduplicator, exactly one is retained: `addMessage` reports
newly-added for the first, reports not-added and leaves the state
unchanged for any later add of an equal-key message (however many other
messages were added in between), and after `clearMessages` an add of the
same key reports newly-added again. -/
theorem dedup_add_once_clear_resets (st0 : ChatState) (m1 m2 : Msg)
    (others : List Msg)
    (hfresh : st0.seen = [])
    (hkey : messageKey m1 = messageKey m2) :
    (addMessage st0 m1).1 = true ∧
    (addMessage (addAllMsgs (addMessage st0 m1).2 others) m2).1 = false ∧
    (addMessage (addAllMsgs (addMessage st0 m1).2 others) m2).2 =
      addAllMsgs (addMessage st0 m1).2 others ∧
    (addMessage (clearMessages (addAllMsgs (addMessage st0 m1).2 others)) m2).1
      = true := by
  have hc : st0.seen.contains (messageKey m1) = false := by
    rw [hfresh]; rfl
  have h1 : (addMessage st0 m1).1 = true := by
    rw [addMessage_of_not_contains st0 m1 hc]
  have hstep : (addMessage st0 m1).2.seen = messageKey m1 :: st0.seen := by
    rw [addMessage_of_not_contains st0 m1 hc]
  have hin1 : (addMessage st0 m1).2.seen.contains (messageKey m2) = true := by
    rw [hstep, List.contains_cons]
    have hb : (messageKey m2 == messageKey m1) = true := by
      simp [hkey]
    simp [hb]
  have hin2 :
      (addAllMsgs (addMessage st0 m1).2 others).seen.contains (messageKey m2)
        = true :=
    addAllMsgs_seen_mono others _ _ hin1
  have h2 :
      addMessage (addAllMsgs (addMessage st0 m1).2 others) m2 =
        (false, addAllMsgs (addMessage st0 m1).2 others) :=
    addMessage_of_contains _ _ hin2
  have hcl : (clearMessages
      (addAllMsgs (addMessage st0 m1).2 others)).seen.contains (messageKey m2)
        = false := rfl
  have h4 :
      (addMessage (clearMessages (addAllMsgs (addMessage st0 m1).2 others)) m2).1
        = true := by
    rw [addMessage_of_not_contains _ m2 hcl]
  exact ⟨h1, by rw [h2], by rw [h2], h4⟩

/-- Witness for C2 at a concrete fresh state and a concrete duplicated
message, with an unrelated message added in between. -/
theorem dedup_add_once_clear_resets_witness :
    (initState cfgW none).seen = [] ∧
    (addMessage (initState cfgW none) msgIdW).1 = true ∧
    (addMessage (addAllMsgs (addMessage (initState cfgW none) msgIdW).2 [msgCidW])
      msgIdW).1 = false ∧
    (addMessage (clearMessages
      (addAllMsgs (addMessage (initState cfgW none) msgIdW).2 [msgCidW])) msgIdW).1
      = true := by
  have h := dedup_add_once_clear_resets (initState cfgW none) msgIdW msgIdW
    [msgCidW] rfl rfl
  exact ⟨rfl, h.1, h.2.1, h.2.2.2⟩

/-- Claim C3: the Dedup Key prefers `client_msg_id`, else the server
`id`, else the composite `sender|created_at|text`, else
`sender|text|time`; `messageKey` is a pure function of the message
fields, so the derivation is deterministic. -/
theorem messageKey_preference_order (m : Msg) :
    (strTruthy m.client_msg_id = true →
      messageKey m = "cid:" ++ m.client_msg_id.getD "") ∧
    (strTruthy m.client_msg_id = false → strTruthy m.id = true →
      messageKey m = "id:" ++ m.id.getD "") ∧
    (strTruthy m.client_msg_id = false → strTruthy m.id = false →
      strTruthy m.created_at = true →
      messageKey m = m.sender ++ "|" ++ m.created_at.getD "" ++ "|" ++ m.text) ∧
    (strTruthy m.client_msg_id = false → strTruthy m.id = false →
      strTruthy m.created_at = false →
      messageKey m = m.sender ++ "|" ++ m.text ++ "|" ++ m.time) := by
  refine ⟨?_, ?_, ?_, ?_⟩
  · intro h1; simp [messageKey, h1]
  · intro h1 h2; simp [messageKey, h1, h2]
  · intro h1 h2 h3; simp [messageKey, h1, h2, h3]
  · intro h1 h2 h3; simp [messageKey, h1, h2, h3]

/-- Witness for C3 at a message that carries a client message id. -/
theorem messageKey_preference_order_witness :
    strTruthy msgCidW.client_msg_id = true ∧
    messageKey msgCidW = "cid:" ++ msgCidW.client_msg_id.getD "" :=
  ⟨by decide, (messageKey_preference_order msgCidW).1 (by decide)⟩

/-- Claim C9: an inbound live-stream frame whose payload does not parse
is silently dropped: the state is unchanged — nothing is added to the
timeline or the seen map, the status line is untouched, and the
connection handle (hence its open/closed status) is unchanged. -/
theorem malformed_frame_dropped (env : Env) (st : ChatState) :
    wsOnMessage env st none = st ∧
    (wsOnMessage env st none).timeline = st.timeline ∧
    (wsOnMessage env st none).seen = st.seen ∧
    (wsOnMessage env st none).status = st.status ∧
    (wsOnMessage env st none).statusKind = st.statusKind ∧
    (wsOnMessage env st none).ws = st.ws ∧
    wsIsOpen (wsOnMessage env st none) = wsIsOpen st :=
  ⟨rfl, rfl, rfl, rfl, rfl, rfl, rfl⟩

/-- Claim C6: `sendMessage` rejects whitespace-only input without
forwarding anything or touching the state; of two calls with valid text
within the 350ms debounce window (the first outside the window of the
previous accepted send, socket OPEN), the first is sent with the freshly
supplied client message id attached and the second is rejected, so
exactly one frame reaches the connection. -/
theorem send_debounce_exactly_one (st : ChatState) (t1 t2 t0 : String)
    (n1 n2 : Nat) (id1 id2 id0 : String)
    (hopen : wsIsOpen st = true)
    (ht1 : (jsTrim t1 == "") = false)
    (ht2 : (jsTrim t2 == "") = false)
    (hgap : st.lastSendAt + 350 ≤ n1)
    (hmono : n1 ≤ n2)
    (hwin : n2 < n1 + 350)
    (ht0 : (jsTrim t0 == "") = true) :
    (sendMessage st t0 n1 id0).1 = SendOutcome.emptyText ∧
    (sendMessage st t0 n1 id0).2 = st ∧
    (sendMessage st t1 n1 id1).1 = SendOutcome.sent ⟨jsTrim t1, id1⟩ ∧
    (sendMessage (sendMessage st t1 n1 id1).2 t2 n2 id2).1 =
      SendOutcome.debounced ∧
    (sendMessage (sendMessage st t1 n1 id1).2 t2 n2 id2).2.sentFrames =
      st.sentFrames ++ [⟨jsTrim t1, id1⟩] := by
  have hd1 : ¬ (n1 - st.lastSendAt < 350) := by omega
  have hs1 : (sendMessage st t1 n1 id1).2 =
      { st with lastSendAt := n1,
                sentFrames := st.sentFrames ++ [⟨jsTrim t1, id1⟩] } := by
    simp [sendMessage, ht1, hd1, wsIsOpen_lastSendAt, hopen]
  have hd2 : n2 - n1 < 350 := by omega
  refine ⟨?_, ?_, ?_, ?_, ?_⟩
  · simp [sendMessage, ht0]
  · simp [sendMessage, ht0]
  · simp [sendMessage, ht1, hd1, wsIsOpen_lastSendAt, hopen]
  · rw [hs1]; simp [sendMessage, ht2, hd2]
  · rw [hs1]; simp [sendMessage, ht2, hd2]

/-- Witness for C6 with an OPEN socket, inputs `" hi "` then `"yo"`
200ms later, and a whitespace-only rejection. -/
theorem send_debounce_exactly_one_witness :
    wsIsOpen stOpenW = true ∧
    (sendMessage (sendMessage stOpenW " hi " 1000 "id1").2 "yo" 1200 "id2").2.sentFrames
      = stOpenW.sentFrames ++ [⟨jsTrim " hi ", "id1"⟩] :=
  ⟨by decide,
   (send_debounce_exactly_one stOpenW " hi " "yo" "  " 1000 1200 "id1" "id2" "id0"
     (by decide) (by decide) (by decide) (by decide) (by decide) (by decide)
     (by decide)).2.2.2.2⟩

/-- Claim C10: a valid-text send outside the debounce window while the
socket is not OPEN is rejected with the not-connected signal, yet
`lastSendAt` is stamped anyway, so a second call within 350ms of the
rejected attempt is rejected as debounced even though no frame was ever
forwarded. -/
theorem rejected_send_consumes_debounce (st : ChatState) (t1 t2 : String)
    (n1 n2 : Nat) (i1 i2 : String)
    (hclosed : wsIsOpen st = false)
    (ht1 : (jsTrim t1 == "") = false)
    (ht2 : (jsTrim t2 == "") = false)
    (hgap : st.lastSendAt + 350 ≤ n1)
    (hmono : n1 ≤ n2)
    (hwin : n2 < n1 + 350) :
    (sendMessage st t1 n1 i1).1 = SendOutcome.notConnected ∧
    (sendMessage st t1 n1 i1).2.lastSendAt = n1 ∧
    (sendMessage (sendMessage st t1 n1 i1).2 t2 n2 i2).1 =
      SendOutcome.debounced ∧
    (sendMessage (sendMessage st t1 n1 i1).2 t2 n2 i2).2.sentFrames =
      st.sentFrames := by
  have hd1 : ¬ (n1 - st.lastSendAt < 350) := by omega
  have hs1 : (sendMessage st t1 n1 i1).2 =
      setStatus { st with lastSendAt := n1 }
        "Ulanish yo\u2018q. Qayta ulaning." "err" := by
    simp [sendMessage, ht1, hd1, wsIsOpen_lastSendAt, hclosed]
  have hd2 : n2 - n1 < 350 := by omega
  refine ⟨?_, ?_, ?_, ?_⟩
  · simp [sendMessage, ht1, hd1, wsIsOpen_lastSendAt, hclosed]
  · rw [hs1]; rfl
  · rw [hs1]; simp [sendMessage, setStatus, ht2, hd2]
  · rw [hs1]; simp [sendMessage, setStatus, ht2, hd2]

/-- Witness for C10: socket never opened, `"hi"` at 1000ms is rejected as
not connected, `"yo"` at 1200ms is rejected as debounced. -/
theorem rejected_send_consumes_debounce_witness :
    wsIsOpen (initState cfgW none) = false ∧
    (sendMessage (sendMessage (initState cfgW none) "hi" 1000 "i1").2 "yo" 1200 "i2").1
      = SendOutcome.debounced :=
  ⟨by decide,
   (rejected_send_consumes_debounce (initState cfgW none) "hi" "yo" 1000 1200
     "i1" "i2" (by decide) (by decide) (by decide) (by decide) (by decide)
     (by decide)).2.2.1⟩

/-- Counterexample to C8 as stated: with the primary path failing to
establish (the socket closes before reaching open), the Manager has made
exactly one WebSocket construction — the unprefixed primary target — and
has already reported the failure (disconnected status, retry shown); no
alternate-prefixed fallback attempt exists. -/
theorem no_ws_fallback_counterexample :
    wsAttemptsOf (wsOnClose (connectWebSocket stTokW "/ws/chat/r1/")).events
      = [("/ws/chat/r1/", "t1")] ∧
    (wsOnClose (connectWebSocket stTokW "/ws/chat/r1/")).status = "Ulanish uzildi" ∧
    (wsOnClose (connectWebSocket stTokW "/ws/chat/r1/")).retryHidden = false := by
  exact ⟨by decide, rfl, rfl⟩

/-- Amended C8: the Connection Manager never attempts a fallback path:
each `connectWebSocket` call constructs exactly one socket, at the given
(unprefixed) path, and a close before open reports the failure directly
(disconnected status, manual retry affordance) without any further
attempt. -/
theorem no_ws_fallback_single_attempt (st : ChatState) (p : String) :
    (connectWebSocket st p).events =
      st.events ++ [Event.wsAttempt p (st.visitorToken.getD "")] ∧
    (wsOnClose (connectWebSocket st p)).events =
      st.events ++ [Event.wsAttempt p (st.visitorToken.getD "")] ∧
    (wsOnClose (connectWebSocket st p)).status = "Ulanish uzildi" ∧
    (wsOnClose (connectWebSocket st p)).statusKind = "err" ∧
    (wsOnClose (connectWebSocket st p)).retryHidden = false :=
  ⟨connectWebSocket_events st p, connectWebSocket_events st p, rfl, rfl, rfl⟩

/-- Claim C4: given candidate bases of which exactly the last succeeds,
`startChat` issues one start call per candidate, in list order, and then
succeeds (adopts the returned room); if every candidate fails it issues
all the calls, enters the error status with the retry control shown, and
the manual retry (which re-runs `startChat`) starts again from the first
candidate. -/
theorem start_walks_candidates (cfg : Config) (env : Env) (st : ChatState) :
    (∀ (l1 : List String) (bLast : String) (resp : StartResp),
      cfg.restBases = l1 ++ [bLast] →
      (∀ b ∈ l1, ∀ p, env.startResult b p = none) →
      (∀ p, env.startResult bLast p = some resp) →
      ∃ tr, (startChat cfg env st).events = st.events ++ tr ∧
        startCalls tr = cfg.restBases.map
          (fun b => (b, mkStartPayload cfg st.roomId st.visitorToken)) ∧
        (startChat cfg env st).roomId = some resp.room_id ∧
        (startChat cfg env st).visitorToken = some resp.visitor_token) ∧
    ((∀ b ∈ cfg.restBases, ∀ p, env.startResult b p = none) →
      (startChat cfg env st).status = "Chatni ochib bo\u2018lmadi" ∧
      (startChat cfg env st).statusKind = "err" ∧
      (startChat cfg env st).retryHidden = false ∧
      (∃ tr, (startChat cfg env st).events = st.events ++ tr ∧
        startCalls tr = cfg.restBases.map
          (fun b => (b, mkStartPayload cfg st.roomId st.visitorToken))) ∧
      (∀ env2 : Env, ∃ tr2,
        (startChat cfg env2 (startChat cfg env st)).events =
          (startChat cfg env st).events ++ tr2 ∧
        (startCalls tr2).head? = cfg.restBases.head?.map
          (fun b => (b, mkStartPayload cfg st.roomId st.visitorToken)))) := by
  constructor
  · intro l1 bLast resp hb hf hs
    obtain ⟨hev, hroom, htok⟩ := tryBase_last_success_events cfg env l1 bLast resp
      { setStatus st "Chat ochilmoqda..." "" with retryHidden := true } hf hs
    refine ⟨(l1 ++ [bLast]).map
        (fun b => Event.restStart b (mkStartPayload cfg st.roomId st.visitorToken))
        ++ [Event.storageSave resp.room_id resp.visitor_token,
            Event.urlReplace resp.room_id resp.visitor_token,
            Event.restHistory bLast resp.room_id resp.visitor_token]
        ++ backlogEvents env bLast resp.room_id resp.visitor_token
        ++ [Event.wsAttempt (jsOr resp.ws_path ("/ws/chat/" ++ resp.room_id ++ "/"))
              resp.visitor_token], ?_, ?_, ?_, ?_⟩
    · show (tryBase cfg env cfg.restBases _).events = _
      rw [hb, hev]
      simp [setStatus, List.append_assoc]
    · rw [hb]
      have h3 : startCalls
          [Event.storageSave resp.room_id resp.visitor_token,
           Event.urlReplace resp.room_id resp.visitor_token,
           Event.restHistory bLast resp.room_id resp.visitor_token] = [] := rfl
      have h4 : startCalls
          [Event.wsAttempt (jsOr resp.ws_path ("/ws/chat/" ++ resp.room_id ++ "/"))
            resp.visitor_token] = [] := rfl
      rw [startCalls_append, startCalls_append, startCalls_append,
          startCalls_map_restStart, startCalls_backlogEvents, h3, h4]
      simp
    · show (tryBase cfg env cfg.restBases _).roomId = _
      rw [hb]; exact hroom
    · show (tryBase cfg env cfg.restBases _).visitorToken = _
      rw [hb]; exact htok
  · intro hall
    have h1 := tryBase_all_fail cfg env cfg.restBases
      { setStatus st "Chat ochilmoqda..." "" with retryHidden := true } hall
    have hro : (startChat cfg env st).roomId = st.roomId := by
      show (tryBase cfg env cfg.restBases _).roomId = st.roomId
      rw [h1]
      rfl
    have hto : (startChat cfg env st).visitorToken = st.visitorToken := by
      show (tryBase cfg env cfg.restBases _).visitorToken = st.visitorToken
      rw [h1]
      rfl
    refine ⟨?_, ?_, ?_, ?_, ?_⟩
    · show (tryBase cfg env cfg.restBases _).status = _
      rw [h1]
    · show (tryBase cfg env cfg.restBases _).statusKind = _
      rw [h1]
    · show (tryBase cfg env cfg.restBases _).retryHidden = _
      rw [h1]
    · refine ⟨cfg.restBases.map
        (fun b => Event.restStart b (mkStartPayload cfg st.roomId st.visitorToken)),
        ?_, startCalls_map_restStart _ _⟩
      show (tryBase cfg env cfg.restBases _).events = _
      rw [h1]
      rfl
    · intro env2
      obtain ⟨tr2, hev2, hh2⟩ := startChat_events_head cfg env2 (startChat cfg env st)
      rw [hro, hto] at hh2
      exact ⟨tr2, hev2, hh2⟩

/-- Witness for C4: two candidates, the first failing, the second
succeeding — both start calls are issued in order and the session adopts
the returned room. -/
theorem start_walks_candidates_witness :
    cfgC4.restBases = ["b0"] ++ [""] ∧
    ∃ tr, (startChat cfgC4 envC4 (initState cfgC4 none)).events =
        (initState cfgC4 none).events ++ tr ∧
      startCalls tr = cfgC4.restBases.map
        (fun b => (b, mkStartPayload cfgC4 (initState cfgC4 none).roomId
          (initState cfgC4 none).visitorToken)) ∧
      (startChat cfgC4 envC4 (initState cfgC4 none)).roomId = some respW.room_id ∧
      (startChat cfgC4 envC4 (initState cfgC4 none)).visitorToken =
        some respW.visitor_token :=
  ⟨rfl,
   (start_walks_candidates cfgC4 envC4 (initState cfgC4 none)).1 ["b0"] "" respW rfl
     (by intro b hb p; simp only [List.mem_singleton] at hb; subst hb; rfl)
     (fun p => rfl)⟩

/-- Claim C5: in a successful start sequence the WebSocket construction
is the final action: every event of the sequence — in particular the
backlog fetch and every timeline addition — precedes it, whether the
history load succeeded or failed (the history oracle is unconstrained);
and in a successful resume — whether the identity came from the URL
query parameters or from the stored Session Record — the trace runs
backlog-fetch, timeline additions, then the single WebSocket
construction. -/
theorem backlog_before_live (cfg : Config) (env : Env) (st : ChatState) :
    (∀ (l1 : List String) (bLast : String) (resp : StartResp),
      cfg.restBases = l1 ++ [bLast] →
      (∀ b ∈ l1, ∀ p, env.startResult b p = none) →
      (∀ p, env.startResult bLast p = some resp) →
      ∃ mid path tok, (startChat cfg env st).events =
          st.events ++ (mid ++ [Event.wsAttempt path tok]) ∧
        (∀ e ∈ mid, isWsAttempt e = false) ∧
        Event.restHistory bLast resp.room_id resp.visitor_token ∈ mid) ∧
    (∀ (ur ut : Option String) (ms : List HistMsg),
      strTruthy ur = true → strTruthy ut = true →
      env.historyResult st.restBase (ur.getD "") (ut.getD "") = some ms →
      ∃ mid, (resumeChat cfg env ur ut st).events =
          st.events ++ (mid ++
            [Event.wsAttempt ("/ws/chat/" ++ ur.getD "" ++ "/") (ut.getD "")]) ∧
        (∀ e ∈ mid, isWsAttempt e = false) ∧
        mid.head? = some (Event.restHistory st.restBase (ur.getD "") (ut.getD ""))) ∧
    (∀ (ur ut : Option String) (rec : StoredRoom) (ms : List HistMsg),
      (strTruthy ur && strTruthy ut) = false →
      st.storage = some rec →
      (strTruthy rec.roomId && strTruthy rec.visitorToken) = true →
      env.historyResult st.restBase (rec.roomId.getD "") (rec.visitorToken.getD "")
        = some ms →
      ∃ mid, (resumeChat cfg env ur ut st).events =
          st.events ++ (mid ++
            [Event.wsAttempt ("/ws/chat/" ++ rec.roomId.getD "" ++ "/")
              (rec.visitorToken.getD "")]) ∧
        (∀ e ∈ mid, isWsAttempt e = false) ∧
        mid.head? = some (Event.restHistory st.restBase (rec.roomId.getD "")
          (rec.visitorToken.getD ""))) := by
  refine ⟨?_, ?_, ?_⟩
  · intro l1 bLast resp hb hf hs
    obtain ⟨hev, _, _⟩ := tryBase_last_success_events cfg env l1 bLast resp
      { setStatus st "Chat ochilmoqda..." "" with retryHidden := true } hf hs
    refine ⟨(l1 ++ [bLast]).map
        (fun b => Event.restStart b (mkStartPayload cfg st.roomId st.visitorToken))
        ++ ([Event.storageSave resp.room_id resp.visitor_token,
             Event.urlReplace resp.room_id resp.visitor_token,
             Event.restHistory bLast resp.room_id resp.visitor_token]
            ++ backlogEvents env bLast resp.room_id resp.visitor_token),
      jsOr resp.ws_path ("/ws/chat/" ++ resp.room_id ++ "/"), resp.visitor_token,
      ?_, ?_, ?_⟩
    · show (tryBase cfg env cfg.restBases _).events = _
      rw [hb, hev]
      simp [setStatus, List.append_assoc]
    · intro e he
      rcases List.mem_append.mp he with h | h
      · obtain ⟨b, _, rfl⟩ := List.mem_map.mp h
        rfl
      · rcases List.mem_append.mp h with h2 | h2
        · simp only [List.mem_cons, List.not_mem_nil, or_false] at h2
          rcases h2 with rfl | rfl | rfl <;> rfl
        · obtain ⟨mm, rfl⟩ := backlogEvents_adds env bLast resp.room_id
            resp.visitor_token e h2
          rfl
    · exact List.mem_append.mpr (Or.inr (List.mem_append.mpr (Or.inl (by simp))))
  · intro ur ut ms hu1 hu2 hms
    have hpick := resumePick_url ur ut st (by simp [hu1, hu2])
    have heq := resumeBody_success_eq cfg env
      { st with roomId := ur, visitorToken := ut } ms hu1 hu2 hms
    refine ⟨[Event.restHistory st.restBase (ur.getD "") (ut.getD "")]
        ++ backlogEvents env st.restBase (ur.getD "") (ut.getD ""), ?_, ?_, ?_⟩
    · show (resumeBody cfg env (resumePick ur ut st)).events = _
      rw [hpick, heq]
      simp [List.append_assoc]
    · intro e he
      rcases List.mem_append.mp he with h | h
      · simp only [List.mem_singleton] at h
        subst h
        rfl
      · obtain ⟨mm, rfl⟩ := backlogEvents_adds env st.restBase (ur.getD "")
          (ut.getD "") e h
        rfl
    · simp
  · intro ur ut rec ms hurl hst hp hms
    have h1 : strTruthy rec.roomId = true := by
      rcases Bool.and_eq_true_iff.mp hp with ⟨a, _⟩; exact a
    have h2 : strTruthy rec.visitorToken = true := by
      rcases Bool.and_eq_true_iff.mp hp with ⟨_, a⟩; exact a
    have hpick := resumePick_stored ur ut st rec hurl hst hp
    have heq := resumeBody_success_eq cfg env
      { st with roomId := rec.roomId, visitorToken := rec.visitorToken } ms h1 h2 hms
    refine ⟨[Event.restHistory st.restBase (rec.roomId.getD "")
          (rec.visitorToken.getD "")]
        ++ backlogEvents env st.restBase (rec.roomId.getD "")
            (rec.visitorToken.getD ""), ?_, ?_, ?_⟩
    · show (resumeBody cfg env (resumePick ur ut st)).events = _
      rw [hpick, heq]
      simp [List.append_assoc]
    · intro e he
      rcases List.mem_append.mp he with h | h
      · simp only [List.mem_singleton] at h
        subst h
        rfl
      · obtain ⟨mm, rfl⟩ := backlogEvents_adds env st.restBase (rec.roomId.getD "")
          (rec.visitorToken.getD "") e h
        rfl
    · simp

/-- Witness for C5: a one-candidate start with a one-message backlog —
the trace ends in the WebSocket construction and contains the backlog
fetch before it. -/
theorem backlog_before_live_witness :
    (∀ p, envOkW.startResult "" p = some respW) ∧
    ∃ mid path tok, (startChat cfgW envOkW (initState cfgW none)).events =
        (initState cfgW none).events ++ (mid ++ [Event.wsAttempt path tok]) ∧
      (∀ e ∈ mid, isWsAttempt e = false) ∧
      Event.restHistory "" respW.room_id respW.visitor_token ∈ mid :=
  ⟨fun _ => rfl,
   (backlog_before_live cfgW envOkW (initState cfgW none)).1 [] "" respW rfl
     (fun b hb => absurd hb (List.not_mem_nil b)) (fun _ => rfl)⟩

/-- Claim C7: on activation the URL pair takes precedence over a stored
record — with both query parameters present the resumed room is the URL
one whatever the store holds; with an incomplete URL pair but a complete
stored pair the stored room is resumed; with neither complete the
Controller runs `startChat`. -/
theorem resume_url_precedence (cfg : Config) (env : Env) (ur ut : Option String)
    (st : ChatState) :
    ((strTruthy ur && strTruthy ut) = true →
      ∃ tr, (resumeChat cfg env ur ut st).events = st.events ++ tr ∧
        tr.head? = some (Event.restHistory st.restBase (ur.getD "") (ut.getD ""))) ∧
    ((strTruthy ur && strTruthy ut) = false →
      ∀ rec, st.storage = some rec →
        (strTruthy rec.roomId && strTruthy rec.visitorToken) = true →
        ∃ tr, (resumeChat cfg env ur ut st).events = st.events ++ tr ∧
          tr.head? = some (Event.restHistory st.restBase
            (rec.roomId.getD "") (rec.visitorToken.getD ""))) ∧
    ((strTruthy ur && strTruthy ut) = false →
      (∀ rec, st.storage = some rec →
        (strTruthy rec.roomId && strTruthy rec.visitorToken) = false) →
      (strTruthy st.roomId && strTruthy st.visitorToken) = false →
      resumeChat cfg env ur ut st = startChat cfg env st) := by
  refine ⟨?_, ?_, ?_⟩
  · intro h
    have h1 : strTruthy ur = true := by
      rcases Bool.and_eq_true_iff.mp h with ⟨a, _⟩; exact a
    have h2 : strTruthy ut = true := by
      rcases Bool.and_eq_true_iff.mp h with ⟨_, a⟩; exact a
    have hpick := resumePick_url ur ut st h
    obtain ⟨tr, hev, hh⟩ := resumeBody_first_event cfg env
      { st with roomId := ur, visitorToken := ut } h1 h2
    refine ⟨tr, ?_, hh⟩
    show (resumeBody cfg env (resumePick ur ut st)).events = _
    rw [hpick]
    exact hev
  · intro h rec hst hp
    have h1 : strTruthy rec.roomId = true := by
      rcases Bool.and_eq_true_iff.mp hp with ⟨a, _⟩; exact a
    have h2 : strTruthy rec.visitorToken = true := by
      rcases Bool.and_eq_true_iff.mp hp with ⟨_, a⟩; exact a
    have hpick := resumePick_stored ur ut st rec h hst hp
    obtain ⟨tr, hev, hh⟩ := resumeBody_first_event cfg env
      { st with roomId := rec.roomId, visitorToken := rec.visitorToken } h1 h2
    refine ⟨tr, ?_, hh⟩
    show (resumeBody cfg env (resumePick ur ut st)).events = _
    rw [hpick]
    exact hev
  · intro h1 h2 h3
    show resumeBody cfg env (resumePick ur ut st) = _
    rw [resumePick_absent ur ut st h1 h2]
    exact resumeBody_start cfg env st h3

/-- Witness for C7: URL pair `(ru, tu)` present while the store holds
`(r1, t1)` — the resumed room is the URL one. -/
theorem resume_url_precedence_witness :
    (strTruthy (some "ru") && strTruthy (some "tu")) = true ∧
    ∃ tr, (resumeChat cfgW envFailW (some "ru") (some "tu") stStoredW).events =
        stStoredW.events ++ tr ∧
      tr.head? = some (Event.restHistory stStoredW.restBase "ru" "tu") :=
  ⟨by decide,
   (resume_url_precedence cfgW envFailW (some "ru") (some "tu") stStoredW).1
     (by decide)⟩

/-- Counterexample to C1 as stated: with stored identity `(r1, t1)` and a
failing backlog fetch, the persisted record is indeed removed (storage
ends empty), but the start call that follows carries
`room_id = "r1"` and `visitor_token = "t1"` in its payload — not a
payload free of those fields. -/
theorem resume_fail_payload_counterexample :
    startCalls (resumeChat cfgW envFailW none none stStoredW).events =
      [("", { user_id := "u1", visitor_name := "", room_id := some "r1",
              visitor_token := some "t1" })] ∧
    (resumeChat cfgW envFailW none none stStoredW).storage = none := by
  constructor
  · decide
  · decide

/-- Amended C1: when a resume's backlog fetch fails, the persisted
identity record is removed (a `storageClear` precedes everything the
fallback start does) and a start call is issued — but the in-memory
identity is not cleared, so that call's payload still carries the stored
`room_id` and `visitor_token` values, requesting continuation of the old
room rather than an anonymous fresh start. -/
theorem resume_fail_clears_then_continuation (cfg : Config) (env : Env)
    (ur ut : Option String) (st : ChatState) (rec : StoredRoom)
    (hurl : (strTruthy ur && strTruthy ut) = false)
    (hst : st.storage = some rec)
    (hr : strTruthy rec.roomId = true) (ht : strTruthy rec.visitorToken = true)
    (hms : env.historyResult st.restBase (rec.roomId.getD "")
      (rec.visitorToken.getD "") = none) :
    ∃ tr, (resumeChat cfg env ur ut st).events =
        st.events ++
          ([Event.restHistory st.restBase (rec.roomId.getD "") (rec.visitorToken.getD ""),
            Event.storageClear] ++ tr) ∧
      (startCalls tr).head? = cfg.restBases.head?.map
        (fun b => (b, mkStartPayload cfg rec.roomId rec.visitorToken)) ∧
      mkStartPayload cfg rec.roomId rec.visitorToken =
        { user_id := cfg.userId, visitor_name := "",
          room_id := rec.roomId, visitor_token := rec.visitorToken } := by
  have hpick := resumePick_stored ur ut st rec hurl hst (by simp [hr, ht])
  have hfail := resumeBody_fail_eq cfg env
    { st with roomId := rec.roomId, visitorToken := rec.visitorToken } hr ht hms
  obtain ⟨tr, hev, hh⟩ := startChat_events_head cfg env
    (clearStoredRoom
      { setStatus (clearMessages
          { st with roomId := rec.roomId, visitorToken := rec.visitorToken })
          "Oldingi chat tiklanmoqda..." "" with
        events := { st with roomId := rec.roomId,
                            visitorToken := rec.visitorToken }.events ++
          [Event.restHistory
            { st with roomId := rec.roomId, visitorToken := rec.visitorToken }.restBase
            ({ st with roomId := rec.roomId,
                       visitorToken := rec.visitorToken }.roomId.getD "")
            ({ st with roomId := rec.roomId,
                       visitorToken := rec.visitorToken }.visitorToken.getD "")] })
  refine ⟨tr, ?_, ?_, ?_⟩
  · show (resumeBody cfg env (resumePick ur ut st)).events = _
    rw [hpick, hfail, hev]
    simp [clearStoredRoom, setStatus, clearMessages, List.append_assoc]
  · exact hh
  · simp [mkStartPayload, hr, ht]

/-- Witness for amended C1 at the concrete stored identity `(r1, t1)`
with a failing history endpoint and a failing start endpoint. -/
theorem resume_fail_clears_then_continuation_witness :
    (strTruthy (none : Option String) && strTruthy (none : Option String)) = false ∧
    ∃ tr, (resumeChat cfgW envFailW none none stStoredW).events =
        stStoredW.events ++
          ([Event.restHistory stStoredW.restBase "r1" "t1",
            Event.storageClear] ++ tr) ∧
      (startCalls tr).head? = cfgW.restBases.head?.map
        (fun b => (b, mkStartPayload cfgW (some "r1") (some "t1"))) ∧
      mkStartPayload cfgW (some "r1") (some "t1") =
        { user_id := cfgW.userId, visitor_name := "",
          room_id := some "r1", visitor_token := some "t1" } :=
  ⟨rfl,
   resume_fail_clears_then_continuation cfgW envFailW none none stStoredW
     ⟨some "r1", some "t1"⟩ rfl rfl (by decide) (by decide) rfl⟩

end CarInfoChat
